import Mathlib

/-
Verification of the statement / result-set execution core of a libzdb-style
database abstraction layer.

Embedded components:
- `PreparedStatement` is translated from src/src/db/PreparedStatement.c, the
  only implementation file present.  The backend delegate (`Pop_T` operations
  table) is modelled by an event trace: every call the statement makes into
  the delegate, and every release of a result set, is recorded as an event,
  and `executeQuery`'s delegate result is an explicit parameter.
- `ResultSet` and the `Time_toX` temporal entry points exist in the sources
  only as headers with documented contracts (ResultSet.h, Time.h); their .c
  implementations are absent, so they are modelled from the spec and from the
  headers' own doc comments, as marked on each definition.
-/

namespace LibZdb

/-- Error taxonomy of the layer (spec section 7).  The C code raises a single
`SQLException` carrying a message; the spec distinguishes these cases, so the
model separates them as constructors. -/
inductive SQLError where
  | outOfRange
  | columnNotFound
  | conversionError
  | databaseAccessError
  | executionError (msg : String)
deriving DecidableEq

/-- Modelled from the spec: `sqldate_t` of SQLDateTime.h (header absent from
src/), a year/month/day record. -/
structure Sqldate where
  year : Int
  month : Int
  day : Int
deriving DecidableEq

/-- Modelled from the spec: `sqltime_t` of SQLDateTime.h (header absent from
src/), an hour/minute/second/microsecond record. -/
structure Sqltime where
  hour : Int
  min : Int
  sec : Int
  usec : Int
deriving DecidableEq

/-- Modelled from the spec: `sqldatetime_t` of SQLDateTime.h (header absent
from src/), a date plus a time. -/
structure Sqldatetime where
  date : Sqldate
  time : Sqltime
deriving DecidableEq

/-- The zero-valued (empty) date structure returned for SQL NULL columns. -/
def Sqldate.zero : Sqldate := ⟨0, 0, 0⟩

/-- The zero-valued (empty) time structure returned for SQL NULL columns. -/
def Sqltime.zero : Sqltime := ⟨0, 0, 0, 0⟩

/-- The zero-valued (empty) datetime structure returned for SQL NULL columns. -/
def Sqldatetime.zero : Sqldatetime := ⟨Sqldate.zero, Sqltime.zero⟩

/-- Numeric value of a decimal digit character, if it is one. -/
def digitVal (c : Char) : Option Nat :=
  if c.isDigit then some (c.toNat - 48) else none

/-- Reads exactly `n` decimal digits, accumulating their value. -/
def parseDigitsAux : Nat → Nat → List Char → Option (Nat × List Char)
  | 0, acc, cs => some (acc, cs)
  | n + 1, acc, c :: cs =>
      match digitVal c with
      | some d => parseDigitsAux n (acc * 10 + d) cs
      | none => none
  | _ + 1, _, [] => none

/-- Reads exactly `n` decimal digits from the front of `cs`. -/
def parseDigits (n : Nat) (cs : List Char) : Option (Nat × List Char) :=
  parseDigitsAux n 0 cs

/-- Consumes one expected character. -/
def expectChar (c : Char) : List Char → Option (List Char)
  | d :: cs => if d = c then some cs else none
  | [] => none

/-- Takes a maximal run of leading digits, as digit values. -/
def takeDigits : List Char → List Nat × List Char
  | c :: cs =>
      match digitVal c with
      | some d =>
          let (ds, rest) := takeDigits cs
          (d :: ds, rest)
      | none => ([], c :: cs)
  | [] => ([], [])

/-- Value of a list of digit values read left to right. -/
def digitsVal (ds : List Nat) : Nat :=
  ds.foldl (fun a d => a * 10 + d) 0

/-- Modelled from the spec: date component parser for the ISO-like format
`YYYY-MM-DD` (Time.c is absent from src/).  Out-of-range month or day is
rejected, never clamped (spec section 4.5). -/
def parseDateChars (cs : List Char) : Option (Sqldate × List Char) :=
  match parseDigits 4 cs with
  | none => none
  | some (y, cs) =>
    match expectChar '-' cs with
    | none => none
    | some cs =>
      match parseDigits 2 cs with
      | none => none
      | some (m, cs) =>
        match expectChar '-' cs with
        | none => none
        | some cs =>
          match parseDigits 2 cs with
          | none => none
          | some (d, cs) =>
            if 1 ≤ m ∧ m ≤ 12 ∧ 1 ≤ d ∧ d ≤ 31 then
              some (⟨(y : Int), (m : Int), (d : Int)⟩, cs)
            else none

/-- Modelled from the spec: optional fractional-seconds parser, `.ffffff`
with one to six digits, scaled to microseconds (Time.c is absent from src/). -/
def parseFrac : List Char → Option (Nat × List Char)
  | '.' :: cs =>
      let (ds, rest) := takeDigits cs
      if ds.length = 0 ∨ 6 < ds.length then none
      else some (digitsVal ds * 10 ^ (6 - ds.length), rest)
  | cs => some (0, cs)

/-- Modelled from the spec: time component parser for `HH:MM:SS[.ffffff]`
(Time.c is absent from src/).  Out-of-range fields (hour 25, ...) are
rejected, never clamped. -/
def parseTimeChars (cs : List Char) : Option (Sqltime × List Char) :=
  match parseDigits 2 cs with
  | none => none
  | some (h, cs) =>
    match expectChar ':' cs with
    | none => none
    | some cs =>
      match parseDigits 2 cs with
      | none => none
      | some (mi, cs) =>
        match expectChar ':' cs with
        | none => none
        | some cs =>
          match parseDigits 2 cs with
          | none => none
          | some (s, cs) =>
            match parseFrac cs with
            | none => none
            | some (us, cs) =>
              if h ≤ 23 ∧ mi ≤ 59 ∧ s ≤ 59 then
                some (⟨(h : Int), (mi : Int), (s : Int), (us : Int)⟩, cs)
              else none

/-- Modelled from the spec: optional timezone-offset parser `±HH:MM`,
yielding the offset in seconds; absent offset yields `none` and consumes
nothing (Time.c is absent from src/). -/
def parseOffset : List Char → Option (Option Int × List Char)
  | '+' :: cs =>
      (match parseDigits 2 cs with
       | none => none
       | some (h, cs) =>
         match expectChar ':' cs with
         | none => none
         | some cs =>
           match parseDigits 2 cs with
           | none => none
           | some (m, cs) => some (some ((h : Int) * 3600 + (m : Int) * 60), cs))
  | '-' :: cs =>
      (match parseDigits 2 cs with
       | none => none
       | some (h, cs) =>
         match expectChar ':' cs with
         | none => none
         | some cs =>
           match parseDigits 2 cs with
           | none => none
           | some (m, cs) => some (some (-((h : Int) * 3600 + (m : Int) * 60)), cs))
  | cs => some (none, cs)

/-- Modelled from the spec: full temporal parser for
`YYYY-MM-DD[ HH:MM:SS[.ffffff]][±HH:MM]` and the date-only subset
(Time.c is absent from src/).  Returns the wall-clock fields together with
the timezone offset in seconds when one was present. -/
def parseDateTimeChars (cs : List Char) : Option (Sqldatetime × Option Int) :=
  match parseDateChars cs with
  | none => none
  | some (d, cs) =>
    match cs with
    | [] => some (⟨d, Sqltime.zero⟩, none)
    | ' ' :: cs =>
      match parseTimeChars cs with
      | none => none
      | some (t, cs) =>
        match parseOffset cs with
        | none => none
        | some (tz, cs) =>
          match cs with
          | [] => some (⟨d, t⟩, tz)
          | _ => none
    | _ => none

/-- Modelled from the spec: time-only parser `HH:MM:SS[.ffffff]` for the
time-only subset accepted by `Time_toTime` (Time.c is absent from src/). -/
def parseTimeOnlyChars (cs : List Char) : Option Sqltime :=
  match parseTimeChars cs with
  | none => none
  | some (t, rest) =>
    match rest with
    | [] => some t
    | _ => none

/-- Days since the Unix epoch of a proleptic-Gregorian civil date, by the
standard civil-from-days era decomposition, with floor division. -/
def daysFromCivil (y m d : Int) : Int :=
  let y1 := if m ≤ 2 then y - 1 else y
  let era := y1.fdiv 400
  let yoe := y1 - era * 400
  let mp := if 2 < m then m - 3 else m + 9
  let doy := (153 * mp + 2).fdiv 5 + d - 1
  let doe := yoe * 365 + yoe.fdiv 4 - yoe.fdiv 100 + doy
  era * 146097 + doe - 719468

/-- Seconds since the Unix epoch of parsed wall-clock fields.  A present
timezone offset is honored by subtracting it; an absent offset treats the
text as already local, with local time modelled as UTC since the model has
no environment. -/
def timestampOfDateTime (dt : Sqldatetime) (tz : Option Int) : Int :=
  daysFromCivil dt.date.year dt.date.month dt.date.day * 86400
    + dt.time.hour * 3600 + dt.time.min * 60 + dt.time.sec - tz.getD 0

/-- Modelled from the spec: `Time_toTimestamp` of Time.c (absent from src/).
Per the doc contract in src/src/system/Time.h it returns a local-time Unix
timestamp of the parsed string, or 0 if the input is NULL, and raises
`SQLException` when the value cannot be converted. -/
def Time_toTimestamp (t : Option String) : Except SQLError Int :=
  match t with
  | none => .ok 0
  | some s =>
    match parseDateTimeChars s.toList with
    | some (dt, tz) => .ok (timestampOfDateTime dt tz)
    | none => .error .conversionError

/-- Modelled from the spec: `Time_toDate` of Time.c (absent from src/).  Per
the doc contract in src/src/system/Time.h it raises `SQLException` when the
value cannot be converted to a valid Date, for instance when the input is
NULL. -/
def Time_toDate (t : Option String) : Except SQLError Sqldate :=
  match t with
  | none => .error .conversionError
  | some s =>
    match parseDateTimeChars s.toList with
    | some (dt, _) => .ok dt.date
    | none => .error .conversionError

/-- Modelled from the spec: `Time_toTime` of Time.c (absent from src/).  Per
the doc contract in src/src/system/Time.h it raises `SQLException` when the
value cannot be converted to a valid Time, for instance when the input is
NULL.  Accepts a time-only string or the time part of a datetime string. -/
def Time_toTime (t : Option String) : Except SQLError Sqltime :=
  match t with
  | none => .error .conversionError
  | some s =>
    match parseTimeOnlyChars s.toList with
    | some tm => .ok tm
    | none =>
      match parseDateTimeChars s.toList with
      | some (dt, _) => .ok dt.time
      | none => .error .conversionError

/-- Modelled from the spec: `Time_toDateTime` of Time.c (absent from src/).
Per the doc contract in src/src/system/Time.h it raises `SQLException` when
the value cannot be converted to a valid DateTime, for instance when the
input is NULL. -/
def Time_toDateTime (t : Option String) : Except SQLError Sqldatetime :=
  match t with
  | none => .error .conversionError
  | some s =>
    match parseDateTimeChars s.toList with
    | some (dt, _) => .ok dt
    | none => .error .conversionError

/-- Modelled from the spec: one step outcome of the backend result-delegate
cursor (ResultSet.c is absent from src/) — either a row of cells, each SQL
NULL (`none`) or a raw textual/byte representation, or a database-access
failure reported by the backend. -/
inductive StepOutcome where
  | row (cells : List (Option String))
  | accessError
deriving DecidableEq

/-- Modelled from the spec: the ResultSet data model (ResultSet.c is absent
from src/).  `columnNames` is fixed for the lifetime of the set, `steps` is
the sequence of backend step outcomes, and `cursor` counts the calls to
`ResultSet_next` that consumed a step; `cursor = 0` is "before first row". -/
structure ResultSet where
  columnNames : List String
  steps : List StepOutcome
  cursor : Nat
deriving DecidableEq

/-- Modelled from the spec: `ResultSet_getColumnCount` — the number of
columns, fixed for the lifetime of the result set. -/
def ResultSet_getColumnCount (R : ResultSet) : Int :=
  (R.columnNames.length : Int)

/-- Modelled from the spec: `ResultSet_next` (ResultSet.c is absent from
src/).  Advances the cursor; yields false once no step remains, leaving the
set unchanged (exhaustion is sticky and raises nothing); a backend access
failure raises a database error. -/
def ResultSet_next (R : ResultSet) : ResultSet × Except SQLError Bool :=
  match R.steps[R.cursor]? with
  | some (.row _) => ({ R with cursor := R.cursor + 1 }, .ok true)
  | some .accessError => ({ R with cursor := R.cursor + 1 }, .error .databaseAccessError)
  | none => (R, .ok false)

/-- The current row of cells, when the cursor stands on a row. -/
def currentRow (R : ResultSet) : Option (List (Option String)) :=
  match R.cursor with
  | 0 => none
  | k + 1 =>
    match R.steps[k]? with
    | some (.row cells) => some cells
    | _ => none

/-- The raw cell of the current row at a 1-based column index; `none` stands
for SQL NULL. -/
def getCell (R : ResultSet) (columnIndex : Int) : Option String :=
  match currentRow R with
  | some cells => cells.getD (columnIndex.toNat - 1) none
  | none => none

/-- The 1-based range condition on a column index (spec section 3
invariant). -/
def validColumn (R : ResultSet) (columnIndex : Int) : Prop :=
  1 ≤ columnIndex ∧ columnIndex ≤ ResultSet_getColumnCount R

instance (R : ResultSet) (i : Int) : Decidable (validColumn R i) :=
  inferInstanceAs (Decidable (_ ∧ _))

/-- Modelled from the spec: `ResultSet_isnull` — true iff the current cell is
SQL NULL; an index outside `[1, columnCount]` raises `OutOfRange`. -/
def ResultSet_isnull (R : ResultSet) (columnIndex : Int) : Except SQLError Bool :=
  if validColumn R columnIndex then .ok (getCell R columnIndex).isNone
  else .error .outOfRange

/-- Modelled from the spec: `ResultSet_getString` — the raw representation of
the current cell, NULL for SQL NULL; an index outside `[1, columnCount]`
raises `OutOfRange`. -/
def ResultSet_getString (R : ResultSet) (columnIndex : Int) : Except SQLError (Option String) :=
  if validColumn R columnIndex then .ok (getCell R columnIndex)
  else .error .outOfRange

/-- Modelled from the spec: `ResultSet_getColumnSize` — byte length of the
raw representation of the current cell, 0 for SQL NULL; an index outside
`[1, columnCount]` raises `OutOfRange`. -/
def ResultSet_getColumnSize (R : ResultSet) (columnIndex : Int) : Except SQLError Int :=
  if validColumn R columnIndex then .ok (((getCell R columnIndex).getD "").length : Int)
  else .error .outOfRange

/-- Signed decimal integer parser for the numeric getters: optional sign then
one or more digits, nothing else. -/
def parseIntChars : List Char → Option Int
  | '-' :: cs =>
      (match takeDigits cs with
       | ([], _) => none
       | (ds, []) => some (-(digitsVal ds : Int))
       | (_, _ :: _) => none)
  | '+' :: cs =>
      (match takeDigits cs with
       | ([], _) => none
       | (ds, []) => some ((digitsVal ds : Int))
       | (_, _ :: _) => none)
  | cs =>
      (match takeDigits cs with
       | ([], _) => none
       | (ds, []) => some ((digitsVal ds : Int))
       | (_, _ :: _) => none)

/-- Modelled from the spec: `ResultSet_getInt` — parses the raw cell into a
32-bit int; SQL NULL yields 0; a non-numeric or overflowing representation
raises a conversion error; an invalid index raises `OutOfRange`. -/
def ResultSet_getInt (R : ResultSet) (columnIndex : Int) : Except SQLError Int :=
  if validColumn R columnIndex then
    match getCell R columnIndex with
    | none => .ok 0
    | some s =>
      match parseIntChars s.toList with
      | some v => if -(2 ^ 31) ≤ v ∧ v ≤ 2 ^ 31 - 1 then .ok v else .error .conversionError
      | none => .error .conversionError
  else .error .outOfRange

/-- Modelled from the spec: `ResultSet_getLLong` — parses the raw cell into a
64-bit long long; SQL NULL yields 0; a non-numeric or overflowing
representation raises a conversion error; an invalid index raises
`OutOfRange`. -/
def ResultSet_getLLong (R : ResultSet) (columnIndex : Int) : Except SQLError Int :=
  if validColumn R columnIndex then
    match getCell R columnIndex with
    | none => .ok 0
    | some s =>
      match parseIntChars s.toList with
      | some v => if -(2 ^ 63) ≤ v ∧ v ≤ 2 ^ 63 - 1 then .ok v else .error .conversionError
      | none => .error .conversionError
  else .error .outOfRange

/-- Decimal floating literal assembled from sign, integer part, fraction
digits and fraction length.  The C `double` is modelled by `Float`; only the
zero value is ever the subject of a claim. -/
def floatOfParts (neg : Bool) (ip fp fplen : Nat) : Float :=
  let mag := Float.ofNat ip + Float.ofNat fp / Float.ofNat (10 ^ fplen)
  if neg then -mag else mag

/-- Decimal `double` parser for `getDouble`: optional sign, digits, optional
fraction, nothing else. -/
def parseFloatChars (cs : List Char) : Option Float :=
  let (neg, cs) :=
    match cs with
    | '-' :: rest => (true, rest)
    | '+' :: rest => (false, rest)
    | rest => (false, rest)
  match takeDigits cs with
  | ([], _) => none
  | (ds, rest) =>
    match rest with
    | [] => some (floatOfParts neg (digitsVal ds) 0 0)
    | '.' :: rest2 =>
      (match takeDigits rest2 with
       | ([], _) => none
       | (fs, []) => some (floatOfParts neg (digitsVal ds) (digitsVal fs) fs.length)
       | (_, _ :: _) => none)
    | _ => none

/-- Modelled from the spec: `ResultSet_getDouble` — parses the raw cell into
a double; SQL NULL yields 0.0; a non-numeric representation raises a
conversion error; an invalid index raises `OutOfRange`. -/
def ResultSet_getDouble (R : ResultSet) (columnIndex : Int) : Except SQLError Float :=
  if validColumn R columnIndex then
    match getCell R columnIndex with
    | none => .ok 0.0
    | some s =>
      match parseFloatChars s.toList with
      | some v => .ok v
      | none => .error .conversionError
  else .error .outOfRange

/-- Modelled from the spec: `ResultSet_getBlob` — raw bytes with their size,
no conversion; SQL NULL yields `(NULL, 0)`; an invalid index raises
`OutOfRange`.  The blob payload is the raw representation itself and the
out-parameter `size` is the second component. -/
def ResultSet_getBlob (R : ResultSet) (columnIndex : Int) :
    Except SQLError (Option String × Int) :=
  if validColumn R columnIndex then
    match getCell R columnIndex with
    | none => .ok (none, 0)
    | some s => .ok (some s, (s.length : Int))
  else .error .outOfRange

/-- Modelled from the spec: `ResultSet_getTimestamp` — converts the raw cell
via the temporal parser; SQL NULL yields 0; an invalid index raises
`OutOfRange`. -/
def ResultSet_getTimestamp (R : ResultSet) (columnIndex : Int) : Except SQLError Int :=
  if validColumn R columnIndex then
    match getCell R columnIndex with
    | none => .ok 0
    | some s => Time_toTimestamp (some s)
  else .error .outOfRange

/-- Modelled from the spec: `ResultSet_getDate` — converts the raw cell via
the temporal parser; SQL NULL yields the empty `sqldate_t`; an invalid index
raises `OutOfRange`. -/
def ResultSet_getDate (R : ResultSet) (columnIndex : Int) : Except SQLError Sqldate :=
  if validColumn R columnIndex then
    match getCell R columnIndex with
    | none => .ok Sqldate.zero
    | some s => Time_toDate (some s)
  else .error .outOfRange

/-- Modelled from the spec: `ResultSet_getTime` — converts the raw cell via
the temporal parser; SQL NULL yields the empty `sqltime_t`; an invalid index
raises `OutOfRange`. -/
def ResultSet_getTime (R : ResultSet) (columnIndex : Int) : Except SQLError Sqltime :=
  if validColumn R columnIndex then
    match getCell R columnIndex with
    | none => .ok Sqltime.zero
    | some s => Time_toTime (some s)
  else .error .outOfRange

/-- Modelled from the spec: `ResultSet_getDateTime` — converts the raw cell
via the temporal parser; SQL NULL yields the empty `sqldatetime_t`; an
invalid index raises `OutOfRange`. -/
def ResultSet_getDateTime (R : ResultSet) (columnIndex : Int) : Except SQLError Sqldatetime :=
  if validColumn R columnIndex then
    match getCell R columnIndex with
    | none => .ok Sqldatetime.zero
    | some s => Time_toDateTime (some s)
  else .error .outOfRange

/-- First 1-based index in `names` whose entry equals `name` exactly
(case-sensitive), starting the count at `start`. -/
def findColumnIndexAux (name : String) : List String → Nat → Option Nat
  | [], _ => none
  | n :: rest, start => if n = name then some start else findColumnIndexAux name rest (start + 1)

/-- Modelled from the spec: by-name column lookup — the 1-based index of the
first column whose name matches exactly (case-sensitive), or `none`. -/
def findColumnIndex (names : List String) (name : String) : Option Nat :=
  findColumnIndexAux name names 1

/-- Modelled from the spec: `ResultSet_getStringByName` — resolves the name
case-sensitively to the first matching column and reads it; a miss raises
the column-not-found error, distinct from `OutOfRange`. -/
def ResultSet_getStringByName (R : ResultSet) (columnName : String) :
    Except SQLError (Option String) :=
  match findColumnIndex R.columnNames columnName with
  | some i => ResultSet_getString R (i : Int)
  | none => .error .columnNotFound

/-- Modelled from the spec: `ResultSet_getIntByName`. -/
def ResultSet_getIntByName (R : ResultSet) (columnName : String) : Except SQLError Int :=
  match findColumnIndex R.columnNames columnName with
  | some i => ResultSet_getInt R (i : Int)
  | none => .error .columnNotFound

/-- Modelled from the spec: `ResultSet_getLLongByName`. -/
def ResultSet_getLLongByName (R : ResultSet) (columnName : String) : Except SQLError Int :=
  match findColumnIndex R.columnNames columnName with
  | some i => ResultSet_getLLong R (i : Int)
  | none => .error .columnNotFound

/-- Modelled from the spec: `ResultSet_getDoubleByName`. -/
def ResultSet_getDoubleByName (R : ResultSet) (columnName : String) : Except SQLError Float :=
  match findColumnIndex R.columnNames columnName with
  | some i => ResultSet_getDouble R (i : Int)
  | none => .error .columnNotFound

/-- Modelled from the spec: `ResultSet_getBlobByName`. -/
def ResultSet_getBlobByName (R : ResultSet) (columnName : String) :
    Except SQLError (Option String × Int) :=
  match findColumnIndex R.columnNames columnName with
  | some i => ResultSet_getBlob R (i : Int)
  | none => .error .columnNotFound

/-- Modelled from the spec: `ResultSet_getTimestampByName`. -/
def ResultSet_getTimestampByName (R : ResultSet) (columnName : String) : Except SQLError Int :=
  match findColumnIndex R.columnNames columnName with
  | some i => ResultSet_getTimestamp R (i : Int)
  | none => .error .columnNotFound

/-- Modelled from the spec: `ResultSet_getDateByName`. -/
def ResultSet_getDateByName (R : ResultSet) (columnName : String) : Except SQLError Sqldate :=
  match findColumnIndex R.columnNames columnName with
  | some i => ResultSet_getDate R (i : Int)
  | none => .error .columnNotFound

/-- Modelled from the spec: `ResultSet_getTimeByName`. -/
def ResultSet_getTimeByName (R : ResultSet) (columnName : String) : Except SQLError Sqltime :=
  match findColumnIndex R.columnNames columnName with
  | some i => ResultSet_getTime R (i : Int)
  | none => .error .columnNotFound

/-- Modelled from the spec: `ResultSet_getDateTimeByName`. -/
def ResultSet_getDateTimeByName (R : ResultSet) (columnName : String) :
    Except SQLError Sqldatetime :=
  match findColumnIndex R.columnNames columnName with
  | some i => ResultSet_getDateTime R (i : Int)
  | none => .error .columnNotFound

/-- A value bound to a positional parameter, one constructor per C setter
type of src/src/db/PreparedStatement.c.  C pointer arguments that may be
NULL are `Option`; the C `double` is carried as an inert `Float`; a blob is
carried with its explicit `size` argument. -/
inductive ParamValue where
  | str (x : Option String)
  | int8 (x : Int)
  | uint8 (x : Nat)
  | int16 (x : Int)
  | uint16 (x : Nat)
  | int32 (x : Int)
  | uint32 (x : Nat)
  | int64 (x : Int)
  | uint64 (x : Nat)
  | double (x : Float)
  | blob (x : Option (List Nat)) (size : Int)
  | timestamp (x : Int)

/-- One observable action of the PreparedStatement layer of
src/src/db/PreparedStatement.c: a release of a held ResultSet
(`ResultSet_free`), or a call into the backend delegate through the `Pop_T`
operations table.  `delegateExecuteQuery` records the result-cursor handle
the delegate returned, `none` standing for a NULL handle.  The type `ρ` of
result-set handles is a parameter of the model. -/
inductive PSEvent (ρ : Type) where
  | releaseResultSet (r : ρ)
  | delegateSet (parameterIndex : Int) (value : ParamValue)
  | delegateExecute
  | delegateExecuteQuery (returned : Option ρ)
  | delegateFree

/-- The mutable state of `struct PreparedStatement_S` relevant to the model:
the `resultSet` field, `none` for the NULL pointer.  The `op` table and the
delegate instance `D` are represented by the event trace instead. -/
structure PreparedStatement (ρ : Type) where
  resultSet : Option ρ

/-- Translation of `_clearResultSet` (src/src/db/PreparedStatement.c line
55): if a ResultSet is held, `ResultSet_free` releases it and nulls the
field. -/
def _clearResultSet {ρ : Type} (P : PreparedStatement ρ) :
    PreparedStatement ρ × List (PSEvent ρ) :=
  match P.resultSet with
  | some r => (⟨none⟩, [.releaseResultSet r])
  | none => (P, [])

/-- Translation of `PreparedStatement_setString`: forwards index and value
verbatim to `op->setString`, touching no statement state. -/
def PreparedStatement_setString {ρ : Type} (P : PreparedStatement ρ)
    (parameterIndex : Int) (x : Option String) : PreparedStatement ρ × List (PSEvent ρ) :=
  (P, [.delegateSet parameterIndex (.str x)])

/-- Translation of `PreparedStatement_setInt8`. -/
def PreparedStatement_setInt8 {ρ : Type} (P : PreparedStatement ρ)
    (parameterIndex : Int) (x : Int) : PreparedStatement ρ × List (PSEvent ρ) :=
  (P, [.delegateSet parameterIndex (.int8 x)])

/-- Translation of `PreparedStatement_setUInt8`. -/
def PreparedStatement_setUInt8 {ρ : Type} (P : PreparedStatement ρ)
    (parameterIndex : Int) (x : Nat) : PreparedStatement ρ × List (PSEvent ρ) :=
  (P, [.delegateSet parameterIndex (.uint8 x)])

/-- Translation of `PreparedStatement_setInt16`. -/
def PreparedStatement_setInt16 {ρ : Type} (P : PreparedStatement ρ)
    (parameterIndex : Int) (x : Int) : PreparedStatement ρ × List (PSEvent ρ) :=
  (P, [.delegateSet parameterIndex (.int16 x)])

/-- Translation of `PreparedStatement_setUInt16`. -/
def PreparedStatement_setUInt16 {ρ : Type} (P : PreparedStatement ρ)
    (parameterIndex : Int) (x : Nat) : PreparedStatement ρ × List (PSEvent ρ) :=
  (P, [.delegateSet parameterIndex (.uint16 x)])

/-- Translation of `PreparedStatement_setInt32`. -/
def PreparedStatement_setInt32 {ρ : Type} (P : PreparedStatement ρ)
    (parameterIndex : Int) (x : Int) : PreparedStatement ρ × List (PSEvent ρ) :=
  (P, [.delegateSet parameterIndex (.int32 x)])

/-- Translation of `PreparedStatement_setUInt32`. -/
def PreparedStatement_setUInt32 {ρ : Type} (P : PreparedStatement ρ)
    (parameterIndex : Int) (x : Nat) : PreparedStatement ρ × List (PSEvent ρ) :=
  (P, [.delegateSet parameterIndex (.uint32 x)])

/-- Translation of `PreparedStatement_setInt64`. -/
def PreparedStatement_setInt64 {ρ : Type} (P : PreparedStatement ρ)
    (parameterIndex : Int) (x : Int) : PreparedStatement ρ × List (PSEvent ρ) :=
  (P, [.delegateSet parameterIndex (.int64 x)])

/-- Translation of `PreparedStatement_setUInt64`. -/
def PreparedStatement_setUInt64 {ρ : Type} (P : PreparedStatement ρ)
    (parameterIndex : Int) (x : Nat) : PreparedStatement ρ × List (PSEvent ρ) :=
  (P, [.delegateSet parameterIndex (.uint64 x)])

/-- Translation of `PreparedStatement_setDouble`. -/
def PreparedStatement_setDouble {ρ : Type} (P : PreparedStatement ρ)
    (parameterIndex : Int) (x : Float) : PreparedStatement ρ × List (PSEvent ρ) :=
  (P, [.delegateSet parameterIndex (.double x)])

/-- Translation of `PreparedStatement_setBlob`. -/
def PreparedStatement_setBlob {ρ : Type} (P : PreparedStatement ρ)
    (parameterIndex : Int) (x : Option (List Nat)) (size : Int) :
    PreparedStatement ρ × List (PSEvent ρ) :=
  (P, [.delegateSet parameterIndex (.blob x size)])

/-- Translation of `PreparedStatement_setTimestamp`. -/
def PreparedStatement_setTimestamp {ρ : Type} (P : PreparedStatement ρ)
    (parameterIndex : Int) (x : Int) : PreparedStatement ρ × List (PSEvent ρ) :=
  (P, [.delegateSet parameterIndex (.timestamp x)])

/-- Translation of `PreparedStatement_execute` (line 161): clears any held
ResultSet, then calls `op->execute`. -/
def PreparedStatement_execute {ρ : Type} (P : PreparedStatement ρ) :
    PreparedStatement ρ × List (PSEvent ρ) :=
  ((_clearResultSet P).1, (_clearResultSet P).2 ++ [.delegateExecute])

/-- Translation of `PreparedStatement_executeQuery` (line 168): clears any
held ResultSet, stores whatever handle `op->executeQuery` returns, and
throws `SQLException` when that handle is NULL, otherwise returns it.
`delegateResult` is the handle the backend delegate returns. -/
def PreparedStatement_executeQuery {ρ : Type} (delegateResult : Option ρ)
    (P : PreparedStatement ρ) :
    PreparedStatement ρ × List (PSEvent ρ) × Except SQLError ρ :=
  match delegateResult with
  | none =>
      (⟨none⟩, (_clearResultSet P).2 ++ [.delegateExecuteQuery none],
       .error (.executionError "PreparedStatement_executeQuery"))
  | some r =>
      (⟨some r⟩, (_clearResultSet P).2 ++ [.delegateExecuteQuery (some r)], .ok r)

/-- Translation of `PreparedStatement_free` (line 75): clears any held
ResultSet, then releases the delegate via `op->free`. -/
def PreparedStatement_free {ρ : Type} (P : PreparedStatement ρ) : List (PSEvent ρ) :=
  (_clearResultSet P).2 ++ [.delegateFree]

/-- One caller-visible operation on a PreparedStatement, for reasoning over
arbitrary operation sequences.  `executeQuery` carries the handle the
backend delegate will return for that call. -/
inductive PSOp where
  | execute
  | executeQuery (returned : Option Nat)
  | setParam (parameterIndex : Int) (value : ParamValue)

/-- Dispatches a bound value to the corresponding C setter. -/
def applySetter (P : PreparedStatement Nat) (parameterIndex : Int) :
    ParamValue → PreparedStatement Nat × List (PSEvent Nat)
  | .str x => PreparedStatement_setString P parameterIndex x
  | .int8 x => PreparedStatement_setInt8 P parameterIndex x
  | .uint8 x => PreparedStatement_setUInt8 P parameterIndex x
  | .int16 x => PreparedStatement_setInt16 P parameterIndex x
  | .uint16 x => PreparedStatement_setUInt16 P parameterIndex x
  | .int32 x => PreparedStatement_setInt32 P parameterIndex x
  | .uint32 x => PreparedStatement_setUInt32 P parameterIndex x
  | .int64 x => PreparedStatement_setInt64 P parameterIndex x
  | .uint64 x => PreparedStatement_setUInt64 P parameterIndex x
  | .double x => PreparedStatement_setDouble P parameterIndex x
  | .blob x size => PreparedStatement_setBlob P parameterIndex x size
  | .timestamp x => PreparedStatement_setTimestamp P parameterIndex x

/-- Executes one operation through the translated C functions, keeping the
new state and the emitted events. -/
def psStep (P : PreparedStatement Nat) : PSOp → PreparedStatement Nat × List (PSEvent Nat)
  | .execute => PreparedStatement_execute P
  | .executeQuery d =>
      ((PreparedStatement_executeQuery d P).1, (PreparedStatement_executeQuery d P).2.1)
  | .setParam i v => applySetter P i v

/-- Runs a sequence of operations, concatenating the event traces. -/
def psRun (P : PreparedStatement Nat) : List PSOp → PreparedStatement Nat × List (PSEvent Nat)
  | [] => (P, [])
  | op :: ops =>
      ((psRun (psStep P op).1 ops).1,
       (psStep P op).2 ++ (psRun (psStep P op).1 ops).2)

/-- Effect of one event on the collection of live (delegate-produced and not
yet released) result-set handles. -/
def liveStep (acc : List Nat) : PSEvent Nat → List Nat
  | .releaseResultSet r => acc.erase r
  | .delegateExecuteQuery (some r) => r :: acc
  | _ => acc

/-- Live result-set handles after a trace, starting from `acc`. -/
def liveSet (acc : List Nat) (tr : List (PSEvent Nat)) : List Nat :=
  tr.foldl liveStep acc

/-- A two-column, one-row fixture: the cursor stands on the row
`(id = "7", label = SQL NULL)`. -/
def exampleResultSet : ResultSet :=
  { columnNames := ["id", "label"], steps := [.row [some "7", none]], cursor := 1 }

/-- A zero-row fixture, cursor before the first row. -/
def emptyResultSet : ResultSet :=
  { columnNames := ["id"], steps := [], cursor := 0 }

/-- A fixture with duplicate column names `["a", "b", "a"]`, cursor on its
only row. -/
def dupResultSet : ResultSet :=
  { columnNames := ["a", "b", "a"], steps := [.row [some "x", some "y", some "z"]], cursor := 1 }

/-- Characterization of the by-name lookup scan: a hit is the first exact
match at or after the start index. -/
theorem findColumnIndexAux_spec (name : String) :
    ∀ (names : List String) (start i : Nat),
      findColumnIndexAux name names start = some i →
      start ≤ i ∧ names[i - start]? = some name
        ∧ ∀ j, j < i - start → names[j]? ≠ some name := by
  intro names
  induction names with
  | nil => intro start i h; simp [findColumnIndexAux] at h
  | cons n rest ih =>
    intro start i h
    unfold findColumnIndexAux at h
    by_cases hn : n = name
    · rw [if_pos hn] at h
      injection h with h
      subst h
      refine ⟨Nat.le_refl _, ?_, ?_⟩
      · simp [Nat.sub_self, hn]
      · intro j hj
        exact absurd hj (by omega)
    · rw [if_neg hn] at h
      obtain ⟨h1, h2, h3⟩ := ih (start + 1) i h
      refine ⟨by omega, ?_, ?_⟩
      · have heq : i - start = (i - (start + 1)) + 1 := by omega
        rw [heq]
        simpa using h2
      · intro j hj
        cases j with
        | zero => simpa using hn
        | succ j2 =>
          have : j2 < i - (start + 1) := by omega
          simpa using h3 j2 this

/-- Folding a trace split into two pieces processes them in order. -/
theorem liveSet_append (acc : List Nat) (t1 t2 : List (PSEvent Nat)) :
    liveSet acc (t1 ++ t2) = liveSet (liveSet acc t1) t2 :=
  List.foldl_append _ _ _ _

/-- An optional value yields at most one list element. -/
theorem option_toList_length {α : Type} (o : Option α) : o.toList.length ≤ 1 := by
  cases o <;> simp [Option.toList]

/-- Every C setter is pure forwarding, so the dispatch over bound values is
the single corresponding delegate call. -/
theorem applySetter_eq (P : PreparedStatement Nat) (i : Int) (v : ParamValue) :
    applySetter P i v = (P, [PSEvent.delegateSet i v]) := by
  cases v <;> rfl

/-- One operation keeps the set of live result-set handles at size at most
one at every point inside its trace, and ends with exactly the handle the
statement then holds. -/
theorem psStep_trace (P : PreparedStatement Nat) (op : PSOp) :
    (∀ k, (liveSet P.resultSet.toList ((psStep P op).2.take k)).length ≤ 1)
    ∧ liveSet P.resultSet.toList (psStep P op).2 = (psStep P op).1.resultSet.toList := by
  obtain ⟨rs⟩ := P
  cases op with
  | execute =>
    cases rs with
    | none =>
      refine ⟨?_, ?_⟩
      · intro k
        rcases k with _ | k <;>
          simp [psStep, PreparedStatement_execute, _clearResultSet, liveSet, liveStep,
            Option.toList]
      · simp [psStep, PreparedStatement_execute, _clearResultSet, liveSet, liveStep,
          Option.toList]
    | some r =>
      refine ⟨?_, ?_⟩
      · intro k
        rcases k with _ | _ | k <;>
          simp [psStep, PreparedStatement_execute, _clearResultSet, liveSet, liveStep,
            Option.toList, List.erase_cons_head]
      · simp [psStep, PreparedStatement_execute, _clearResultSet, liveSet, liveStep,
          Option.toList, List.erase_cons_head]
  | executeQuery d =>
    cases rs with
    | none =>
      cases d with
      | none =>
        refine ⟨?_, ?_⟩
        · intro k
          rcases k with _ | k <;>
            simp [psStep, PreparedStatement_executeQuery, _clearResultSet, liveSet, liveStep,
              Option.toList]
        · simp [psStep, PreparedStatement_executeQuery, _clearResultSet, liveSet, liveStep,
            Option.toList]
      | some r2 =>
        refine ⟨?_, ?_⟩
        · intro k
          rcases k with _ | k <;>
            simp [psStep, PreparedStatement_executeQuery, _clearResultSet, liveSet, liveStep,
              Option.toList]
        · simp [psStep, PreparedStatement_executeQuery, _clearResultSet, liveSet, liveStep,
            Option.toList]
    | some r =>
      cases d with
      | none =>
        refine ⟨?_, ?_⟩
        · intro k
          rcases k with _ | _ | k <;>
            simp [psStep, PreparedStatement_executeQuery, _clearResultSet, liveSet, liveStep,
              Option.toList, List.erase_cons_head]
        · simp [psStep, PreparedStatement_executeQuery, _clearResultSet, liveSet, liveStep,
            Option.toList, List.erase_cons_head]
      | some r2 =>
        refine ⟨?_, ?_⟩
        · intro k
          rcases k with _ | _ | k <;>
            simp [psStep, PreparedStatement_executeQuery, _clearResultSet, liveSet, liveStep,
              Option.toList, List.erase_cons_head]
        · simp [psStep, PreparedStatement_executeQuery, _clearResultSet, liveSet, liveStep,
            Option.toList, List.erase_cons_head]
  | setParam i v =>
    refine ⟨?_, ?_⟩
    · intro k
      rcases k with _ | k <;>
        simp [psStep, applySetter_eq, liveSet, liveStep] <;>
        exact option_toList_length _
    · simp [psStep, applySetter_eq, liveSet, liveStep]

/-- Running any operation sequence keeps the live result-set handles at size
at most one at every trace prefix, and the live handle at the end is exactly
the one the statement holds. -/
theorem psRun_live (ops : List PSOp) :
    ∀ P : PreparedStatement Nat,
      (∀ k, (liveSet P.resultSet.toList ((psRun P ops).2.take k)).length ≤ 1)
      ∧ liveSet P.resultSet.toList (psRun P ops).2 = (psRun P ops).1.resultSet.toList := by
  induction ops with
  | nil =>
    intro P
    refine ⟨?_, ?_⟩
    · intro k
      rcases k with _ | k <;> simp [psRun, liveSet] <;> exact option_toList_length _
    · simp [psRun, liveSet]
  | cons op ops ih =>
    intro P
    obtain ⟨hsk, hse⟩ := psStep_trace P op
    obtain ⟨hrk, hre⟩ := ih (psStep P op).1
    have hrun2 : (psRun P (op :: ops)).2
        = (psStep P op).2 ++ (psRun (psStep P op).1 ops).2 := rfl
    have hrun1 : (psRun P (op :: ops)).1 = (psRun (psStep P op).1 ops).1 := rfl
    refine ⟨?_, ?_⟩
    · intro k
      rw [hrun2, List.take_append_eq_append_take, liveSet_append]
      by_cases hlen : (psStep P op).2.length ≤ k
      · rw [List.take_of_length_le hlen, hse]
        exact hrk _
      · have h0 : k - (psStep P op).2.length = 0 := by omega
        rw [h0]
        exact hsk k
    · rw [hrun2, liveSet_append, hse, hrun1]
      exact hre

/-- C3 counterexample: the claim says `Time_toTimestamp` raises a conversion
error on NULL input, but per the documented contract of Time.h it returns 0
on NULL input without raising. -/
theorem C3_counterexample :
    Time_toTimestamp none = Except.ok 0
    ∧ Time_toTimestamp none ≠ Except.error SQLError.conversionError :=
  ⟨rfl, fun h =>
    Except.noConfusion ((rfl : Except.ok (0 : Int) = Time_toTimestamp none).trans h)⟩

/-- C3 (amended): for NULL input, `Time_toDate`, `Time_toTime` and
`Time_toDateTime` raise a conversion error, while `Time_toTimestamp` returns
the timestamp 0 without raising. -/
theorem C3_null_policy :
    Time_toTimestamp none = Except.ok 0
    ∧ Time_toDate none = Except.error SQLError.conversionError
    ∧ Time_toTime none = Except.error SQLError.conversionError
    ∧ Time_toDateTime none = Except.error SQLError.conversionError :=
  ⟨rfl, rfl, rfl, rfl⟩

/-- C8: `PreparedStatement_free` first releases any live ResultSet the
statement holds, and only then releases the backend delegate via the
delegate's free operation — the trace is the (possibly empty) release of the
held ResultSet followed by the delegate free call. -/
theorem C8_free_order {ρ : Type} (P : PreparedStatement ρ) :
    PreparedStatement_free P
      = P.resultSet.toList.map PSEvent.releaseResultSet ++ [PSEvent.delegateFree] := by
  obtain ⟨rs⟩ := P
  cases rs <;> rfl

/-- C9: every parameter setter forwards its index and value verbatim to the
corresponding backend-delegate operation, leaving the statement state
untouched and emitting exactly that one delegate call — in particular no
validation, transformation or error is produced at this layer. -/
theorem C9_setters_forward {ρ : Type} (P : PreparedStatement ρ) (i : Int) :
    (∀ x, PreparedStatement_setString P i x = (P, [PSEvent.delegateSet i (ParamValue.str x)]))
    ∧ (∀ x, PreparedStatement_setInt8 P i x = (P, [PSEvent.delegateSet i (ParamValue.int8 x)]))
    ∧ (∀ x, PreparedStatement_setUInt8 P i x = (P, [PSEvent.delegateSet i (ParamValue.uint8 x)]))
    ∧ (∀ x, PreparedStatement_setInt16 P i x = (P, [PSEvent.delegateSet i (ParamValue.int16 x)]))
    ∧ (∀ x, PreparedStatement_setUInt16 P i x = (P, [PSEvent.delegateSet i (ParamValue.uint16 x)]))
    ∧ (∀ x, PreparedStatement_setInt32 P i x = (P, [PSEvent.delegateSet i (ParamValue.int32 x)]))
    ∧ (∀ x, PreparedStatement_setUInt32 P i x = (P, [PSEvent.delegateSet i (ParamValue.uint32 x)]))
    ∧ (∀ x, PreparedStatement_setInt64 P i x = (P, [PSEvent.delegateSet i (ParamValue.int64 x)]))
    ∧ (∀ x, PreparedStatement_setUInt64 P i x = (P, [PSEvent.delegateSet i (ParamValue.uint64 x)]))
    ∧ (∀ x, PreparedStatement_setDouble P i x = (P, [PSEvent.delegateSet i (ParamValue.double x)]))
    ∧ (∀ x size, PreparedStatement_setBlob P i x size
          = (P, [PSEvent.delegateSet i (ParamValue.blob x size)]))
    ∧ (∀ x, PreparedStatement_setTimestamp P i x
          = (P, [PSEvent.delegateSet i (ParamValue.timestamp x)])) :=
  ⟨fun _ => rfl, fun _ => rfl, fun _ => rfl, fun _ => rfl, fun _ => rfl, fun _ => rfl,
   fun _ => rfl, fun _ => rfl, fun _ => rfl, fun _ => rfl, fun _ _ => rfl, fun _ => rfl⟩

/-- C10: when the delegate returns no result handle, `executeQuery` raises
the execution error only after the previously held ResultSet has been
released — the trace already contains the release, the statement ends up
holding no ResultSet, and the prior ResultSet is no longer reachable from
the statement. -/
theorem C10_error_path_state {ρ : Type} (P : PreparedStatement ρ) :
    PreparedStatement_executeQuery none P
      = (⟨none⟩,
         P.resultSet.toList.map PSEvent.releaseResultSet ++ [PSEvent.delegateExecuteQuery none],
         Except.error (SQLError.executionError "PreparedStatement_executeQuery")) := by
  obtain ⟨rs⟩ := P
  cases rs <;> rfl

/-- C1: `executeQuery` first discards any prior result set and forwards to
the delegate; a NULL delegate handle raises the execution error, while a
delegate-returned result set is returned normally even with zero rows — an
empty result set simply yields false on its first `next()` and is never an
error. -/
theorem C1_executeQuery (P : PreparedStatement ResultSet) (d : Option ResultSet) :
    (PreparedStatement_executeQuery d P).2.1
        = P.resultSet.toList.map PSEvent.releaseResultSet ++ [PSEvent.delegateExecuteQuery d]
    ∧ (PreparedStatement_executeQuery d P).1 = ⟨d⟩
    ∧ (d = none →
        (PreparedStatement_executeQuery d P).2.2
          = Except.error (SQLError.executionError "PreparedStatement_executeQuery"))
    ∧ (∀ rs, d = some rs → (PreparedStatement_executeQuery d P).2.2 = Except.ok rs)
    ∧ (∀ rs : ResultSet, d = some rs → rs.steps = [] →
        ResultSet_next rs = (rs, Except.ok false)) := by
  obtain ⟨rs0⟩ := P
  refine ⟨?_, ?_, ?_, ?_, ?_⟩
  · cases rs0 <;> cases d <;> rfl
  · cases rs0 <;> cases d <;> rfl
  · intro hd; subst hd; cases rs0 <;> rfl
  · intro rs hd; subst hd; cases rs0 <;> rfl
  · intro rs _ hsteps
    unfold ResultSet_next
    rw [hsteps]
    simp

/-- C1 witness: a two-column statement holding a prior result set, run once
with a delegate returning an empty result set and once with a delegate
returning NULL. -/
theorem C1_executeQuery_witness :
    emptyResultSet.steps = []
    ∧ (PreparedStatement_executeQuery (some emptyResultSet) ⟨some exampleResultSet⟩).2.2
        = Except.ok emptyResultSet
    ∧ ResultSet_next emptyResultSet = (emptyResultSet, Except.ok false)
    ∧ (PreparedStatement_executeQuery none
          (⟨some exampleResultSet⟩ : PreparedStatement ResultSet)).2.2
        = Except.error (SQLError.executionError "PreparedStatement_executeQuery") :=
  ⟨rfl,
   (C1_executeQuery ⟨some exampleResultSet⟩ (some emptyResultSet)).2.2.2.1 emptyResultSet rfl,
   (C1_executeQuery ⟨some exampleResultSet⟩ (some emptyResultSet)).2.2.2.2 emptyResultSet rfl rfl,
   (C1_executeQuery ⟨some exampleResultSet⟩ none).2.2.1 rfl⟩

/-- C4: every indexed getter, `getColumnSize` and `isNull` raise `OutOfRange`
for a column index outside `[1, columnCount]`; in the model every such call
returns the defined `OutOfRange` error, so no out-of-bounds access occurs. -/
theorem C4_outOfRange (R : ResultSet) (i : Int)
    (h : i < 1 ∨ ResultSet_getColumnCount R < i) :
    ResultSet_getString R i = Except.error SQLError.outOfRange
    ∧ ResultSet_getInt R i = Except.error SQLError.outOfRange
    ∧ ResultSet_getLLong R i = Except.error SQLError.outOfRange
    ∧ ResultSet_getDouble R i = Except.error SQLError.outOfRange
    ∧ ResultSet_getBlob R i = Except.error SQLError.outOfRange
    ∧ ResultSet_getTimestamp R i = Except.error SQLError.outOfRange
    ∧ ResultSet_getDate R i = Except.error SQLError.outOfRange
    ∧ ResultSet_getTime R i = Except.error SQLError.outOfRange
    ∧ ResultSet_getDateTime R i = Except.error SQLError.outOfRange
    ∧ ResultSet_getColumnSize R i = Except.error SQLError.outOfRange
    ∧ ResultSet_isnull R i = Except.error SQLError.outOfRange := by
  have hv : ¬ validColumn R i := by
    unfold validColumn
    omega
  refine ⟨?_, ?_, ?_, ?_, ?_, ?_, ?_, ?_, ?_, ?_, ?_⟩ <;>
    simp [ResultSet_getString, ResultSet_getInt, ResultSet_getLLong, ResultSet_getDouble,
      ResultSet_getBlob, ResultSet_getTimestamp, ResultSet_getDate, ResultSet_getTime,
      ResultSet_getDateTime, ResultSet_getColumnSize, ResultSet_isnull, hv]

/-- C4 witness: index 0 on the two-column fixture. -/
theorem C4_outOfRange_witness :
    ((0 : Int) < 1 ∨ ResultSet_getColumnCount exampleResultSet < 0)
    ∧ ResultSet_getString exampleResultSet 0 = Except.error SQLError.outOfRange
    ∧ ResultSet_isnull exampleResultSet 0 = Except.error SQLError.outOfRange :=
  ⟨Or.inl (by decide),
   (C4_outOfRange exampleResultSet 0 (Or.inl (by decide))).1,
   (C4_outOfRange exampleResultSet 0 (Or.inl (by decide))).2.2.2.2.2.2.2.2.2.2⟩

/-- C5: on a valid column of the current row holding SQL NULL, `getString`
returns NULL, the numeric getters return the type's zero value and `getBlob`
returns `(NULL, 0)`; none of them raises an error. -/
theorem C5_null_getters (R : ResultSet) (i : Int)
    (hv : validColumn R i)
    (hnull : ResultSet_isnull R i = Except.ok true) :
    ResultSet_getString R i = Except.ok none
    ∧ ResultSet_getInt R i = Except.ok 0
    ∧ ResultSet_getLLong R i = Except.ok 0
    ∧ ResultSet_getDouble R i = Except.ok 0.0
    ∧ ResultSet_getBlob R i = Except.ok (none, 0) := by
  have hc : getCell R i = none := by
    simpa [ResultSet_isnull, hv, Option.isNone_iff_eq_none] using hnull
  refine ⟨?_, ?_, ?_, ?_, ?_⟩ <;>
    simp [ResultSet_getString, ResultSet_getInt, ResultSet_getLLong, ResultSet_getDouble,
      ResultSet_getBlob, hv, hc]

/-- C5 witness: the SQL NULL `label` column of the fixture row. -/
theorem C5_null_getters_witness :
    validColumn exampleResultSet 2
    ∧ ResultSet_isnull exampleResultSet 2 = Except.ok true
    ∧ ResultSet_getString exampleResultSet 2 = Except.ok none
    ∧ ResultSet_getInt exampleResultSet 2 = Except.ok 0 :=
  ⟨by decide, rfl,
   (C5_null_getters exampleResultSet 2 (by decide) rfl).1,
   (C5_null_getters exampleResultSet 2 (by decide) rfl).2.1⟩

/-- C6: `next` returns false with the set unchanged once no rows remain —
also on the first call for an empty set — so every later call returns false
again without raising; an error arises only when the backend reports an
access failure at the current step, never from mere exhaustion. -/
theorem C6_next_exhaustion (R : ResultSet) :
    (R.steps.length ≤ R.cursor → ResultSet_next R = (R, Except.ok false))
    ∧ ((ResultSet_next R).2 = Except.ok false →
        ResultSet_next (ResultSet_next R).1 = ((ResultSet_next R).1, Except.ok false))
    ∧ (∀ e, (ResultSet_next R).2 = Except.error e →
        e = SQLError.databaseAccessError ∧ R.steps[R.cursor]? = some StepOutcome.accessError)
    ∧ (R.steps = [] → ResultSet_next R = (R, Except.ok false)) := by
  rcases hc : R.steps[R.cursor]? with _ | s
  · have hnext : ResultSet_next R = (R, Except.ok false) := by
      unfold ResultSet_next
      rw [hc]
    refine ⟨fun _ => hnext, ?_, ?_, fun _ => hnext⟩
    · intro _
      rw [hnext]
      exact hnext
    · intro e he
      rw [hnext] at he
      exact absurd he (by simp)
  · cases s with
    | row cells =>
      have hnext : ResultSet_next R = ({ R with cursor := R.cursor + 1 }, Except.ok true) := by
        unfold ResultSet_next
        rw [hc]
      refine ⟨?_, ?_, ?_, ?_⟩
      · intro h
        rw [List.getElem?_eq_none h] at hc
        exact absurd hc (by simp)
      · intro h
        rw [hnext] at h
        exact absurd h (by simp)
      · intro e he
        rw [hnext] at he
        exact absurd he (by simp)
      · intro h
        rw [h] at hc
        exact absurd hc (by simp)
    | accessError =>
      have hnext : ResultSet_next R
          = ({ R with cursor := R.cursor + 1 }, Except.error SQLError.databaseAccessError) := by
        unfold ResultSet_next
        rw [hc]
      refine ⟨?_, ?_, ?_, ?_⟩
      · intro h
        rw [List.getElem?_eq_none h] at hc
        exact absurd hc (by simp)
      · intro h
        rw [hnext] at h
        exact absurd h (by simp)
      · intro e he
        rw [hnext] at he
        simp only [Except.error.injEq] at he
        exact ⟨he.symm, rfl⟩
      · intro h
        rw [h] at hc
        exact absurd hc (by simp)

/-- C6 witness: the empty fixture, exhausted from the start. -/
theorem C6_next_exhaustion_witness :
    emptyResultSet.steps.length ≤ emptyResultSet.cursor
    ∧ ResultSet_next emptyResultSet = (emptyResultSet, Except.ok false)
    ∧ ResultSet_next (ResultSet_next emptyResultSet).1
        = ((ResultSet_next emptyResultSet).1, Except.ok false) :=
  ⟨Nat.le_refl _,
   (C6_next_exhaustion emptyResultSet).1 (Nat.le_refl _),
   (C6_next_exhaustion emptyResultSet).2.1 rfl⟩

/-- C7: by-name lookup is case-sensitive exact string matching; a hit is the
lowest-indexed matching column and the ByName getter then reads exactly that
column; a miss raises the column-not-found error on every ByName getter,
which is distinct from the out-of-range error; on names `["a", "b", "a"]`
the name `"a"` resolves to index 1. -/
theorem C7_byName_lookup :
    (∀ (names : List String) (name : String) (i : Nat),
        findColumnIndex names name = some i →
        1 ≤ i ∧ names[i - 1]? = some name ∧ ∀ j, j + 1 < i → names[j]? ≠ some name)
    ∧ (∀ (R : ResultSet) (name : String) (i : Nat),
        findColumnIndex R.columnNames name = some i →
        ResultSet_getStringByName R name = ResultSet_getString R (i : Int))
    ∧ (∀ (R : ResultSet) (name : String),
        findColumnIndex R.columnNames name = none →
        ResultSet_getStringByName R name = Except.error SQLError.columnNotFound
        ∧ ResultSet_getIntByName R name = Except.error SQLError.columnNotFound
        ∧ ResultSet_getLLongByName R name = Except.error SQLError.columnNotFound
        ∧ ResultSet_getDoubleByName R name = Except.error SQLError.columnNotFound
        ∧ ResultSet_getBlobByName R name = Except.error SQLError.columnNotFound
        ∧ ResultSet_getTimestampByName R name = Except.error SQLError.columnNotFound
        ∧ ResultSet_getDateByName R name = Except.error SQLError.columnNotFound
        ∧ ResultSet_getTimeByName R name = Except.error SQLError.columnNotFound
        ∧ ResultSet_getDateTimeByName R name = Except.error SQLError.columnNotFound)
    ∧ SQLError.columnNotFound ≠ SQLError.outOfRange
    ∧ findColumnIndex ["a", "b", "a"] "a" = some 1
    ∧ findColumnIndex ["A"] "a" = none := by
  refine ⟨?_, ?_, ?_, ?_, ?_, ?_⟩
  · intro names name i h
    obtain ⟨h1, h2, h3⟩ := findColumnIndexAux_spec name names 1 i h
    exact ⟨h1, h2, fun j hj => h3 j (by omega)⟩
  · intro R name i h
    unfold ResultSet_getStringByName
    rw [h]
  · intro R name h
    refine ⟨?_, ?_, ?_, ?_, ?_, ?_, ?_, ?_, ?_⟩ <;>
      simp [ResultSet_getStringByName, ResultSet_getIntByName, ResultSet_getLLongByName,
        ResultSet_getDoubleByName, ResultSet_getBlobByName, ResultSet_getTimestampByName,
        ResultSet_getDateByName, ResultSet_getTimeByName, ResultSet_getDateTimeByName, h]
  · exact fun h => SQLError.noConfusion h
  · decide
  · decide

/-- C7 witness: duplicate names resolve to the first match; a missing name
raises the column-not-found error. -/
theorem C7_byName_lookup_witness :
    findColumnIndex dupResultSet.columnNames "a" = some 1
    ∧ dupResultSet.columnNames[1 - 1]? = some "a"
    ∧ ResultSet_getStringByName dupResultSet "a" = ResultSet_getString dupResultSet 1
    ∧ findColumnIndex dupResultSet.columnNames "c" = none
    ∧ ResultSet_getStringByName dupResultSet "c" = Except.error SQLError.columnNotFound :=
  ⟨by decide,
   (C7_byName_lookup.1 dupResultSet.columnNames "a" 1 (by decide)).2.1,
   C7_byName_lookup.2.1 dupResultSet "a" 1 (by decide),
   by decide,
   (C7_byName_lookup.2.2.1 dupResultSet "c" (by decide)).1⟩

/-- C2: over every operation sequence from a fresh statement, at most one
delegate-produced result set is unreleased at any point of the interaction,
the unreleased one is exactly the one the statement holds, and every
`execute`/`executeQuery` call on a statement holding a result set releases
it as its very first action. -/
theorem C2_single_resultSet :
    (∀ (ops : List PSOp) (k : Nat),
        (liveSet [] (((psRun ⟨none⟩ ops).2).take k)).length ≤ 1)
    ∧ (∀ ops : List PSOp,
        liveSet [] (psRun ⟨none⟩ ops).2 = (psRun ⟨none⟩ ops).1.resultSet.toList)
    ∧ (∀ (P : PreparedStatement Nat) (r : Nat) (op : PSOp),
        P.resultSet = some r →
        (op = PSOp.execute ∨ ∃ d, op = PSOp.executeQuery d) →
        ∃ rest, (psStep P op).2 = PSEvent.releaseResultSet r :: rest) := by
  refine ⟨?_, ?_, ?_⟩
  · intro ops k
    exact (psRun_live ops ⟨none⟩).1 k
  · intro ops
    exact (psRun_live ops ⟨none⟩).2
  · intro P r op hP hop
    obtain ⟨rs⟩ := P
    have hrs : rs = some r := hP
    subst hrs
    rcases hop with h | ⟨d, h⟩
    · subst h
      exact ⟨[PSEvent.delegateExecute], rfl⟩
    · subst h
      cases d with
      | none => exact ⟨[PSEvent.delegateExecuteQuery none], rfl⟩
      | some r2 => exact ⟨[PSEvent.delegateExecuteQuery (some r2)], rfl⟩

/-- C2 witness: two consecutive queries never leave two live result sets in
any trace prefix, and `execute` on a holding statement releases first. -/
theorem C2_single_resultSet_witness :
    ((⟨some 5⟩ : PreparedStatement Nat).resultSet = some 5)
    ∧ (liveSet []
        (((psRun ⟨none⟩ [PSOp.executeQuery (some 5), PSOp.executeQuery (some 7)]).2).take 3)).length ≤ 1
    ∧ (∃ rest, (psStep ⟨some 5⟩ PSOp.execute).2 = PSEvent.releaseResultSet 5 :: rest) :=
  ⟨rfl,
   C2_single_resultSet.1 [PSOp.executeQuery (some 5), PSOp.executeQuery (some 7)] 3,
   C2_single_resultSet.2.2 ⟨some 5⟩ 5 PSOp.execute rfl (Or.inl rfl)⟩

end LibZdb
